import Mathlib

/-!
Verification of the update orchestration core of `umdu-haos-updater`
(`app/updater.py`, `app/orchestrator.py`, `app/mqtt_service.py`,
`app/main.py`), as a shallow embedding: pure helpers become Lean
functions, stateful callbacks become explicit state passing, Python
exceptions become `Except`-style sum results, and external collaborators
(Supervisor REST API, the network, the RAUC subprocess) become explicit
outcome parameters.
-/

namespace Umdu

/-! ## Version comparison (`updater.is_newer`) -/

/-- Characters of one dotted field: splits a character list on the dot
separator, mirroring how the version parser tokenises the release part of
a version string. -/
def splitDots : List Char → List (List Char)
  | [] => [[]]
  | c :: rest =>
    match splitDots rest with
    | [] => [[]]
    | g :: gs => if c = '.' then [] :: g :: gs else (c :: g) :: gs

/-- Numeric value of a non-empty all-digit character list. -/
def digitsToNat (cs : List Char) : Nat :=
  cs.foldl (fun n c => n * 10 + (c.toNat - 48)) 0

/-- Parses one dotted field: `some` of its numeric value when the field is
non-empty and all digits, `none` otherwise. -/
def parseField (cs : List Char) : Option Nat :=
  if cs ≠ [] && cs.all Char.isDigit then some (digitsToNat cs) else none

/-- Strict semantic-version reading of a string, following the words of the
spec ("fails to parse as a semantic version", "major.minor.patch, numeric
field-wise"): the dotted all-numeric releases. This is the claim-side
definition, to be compared with the parser the source actually uses
(`parseVersion` below, the PEP 440 grammar of `packaging.version.Version`),
which accepts strictly more strings. -/
def semverRelease (s : String) : Option (List Nat) :=
  (splitDots s.data).mapM parseField

/-- Lexicographic strictly-less test on character lists by code point, the
order Python uses for `str` comparison: a proper prefix is smaller. -/
def charsLt : List Char → List Char → Bool
  | [], [] => false
  | [], _ :: _ => true
  | _ :: _, [] => false
  | c :: cs, d :: ds => if c < d then true else if d < c then false else charsLt cs ds

/-- Python `ver_a > ver_b` on strings: code-point lexicographic order. -/
def pyStrGt (ver_a ver_b : String) : Bool :=
  charsLt ver_b.data ver_a.data

/-- Separator characters `[-_.]` of the PEP 440 grammar. -/
def isSepChar (c : Char) : Bool :=
  c = '-' || c = '_' || c = '.'

/-- Whitespace admitted around a version by the anchored pattern
(Python regex `\s`, taken over its ASCII range here). -/
def isPyWs (c : Char) : Bool :=
  c = ' ' || c = '\t' || c = '\n' || c = '\r' || c = '\x0b' || c = '\x0c'

/-- Strips surrounding whitespace, as the anchored `\s*` of the version
pattern does. -/
def stripWs (cs : List Char) : List Char :=
  ((cs.dropWhile isPyWs).reverse.dropWhile isPyWs).reverse

/-- Normalised pre-release letters of PEP 440 (`alpha` to `a`, `beta` to
`b`, and `c`/`pre`/`preview` to `rc`), in their comparison order. -/
inductive PreTag
  | a
  | b
  | rc
deriving DecidableEq, Repr

/-- Comparison rank of a pre-release letter: the letters compare as the
strings a, b, rc do. -/
def preTagNum : PreTag → Nat
  | .a => 0
  | .b => 1
  | .rc => 2

/-- One segment of a PEP 440 local version: numeric segments compare as
integers and above every alphanumeric segment. -/
inductive LocalSeg
  | num (n : Nat)
  | alnum (s : String)
deriving DecidableEq, Repr

/-- The parsed form of a PEP 440 version, the `_Version` record of
`packaging.version` that `updater.is_newer` compares: epoch, release
fields, optional pre-release `(letter, n)`, optional post and dev numbers,
optional local segments. -/
structure PyVersion where
  epoch : Nat
  release : List Nat
  pre : Option (PreTag × Nat)
  post : Option Nat
  dev : Option Nat
  localVer : Option (List LocalSeg)
deriving DecidableEq, Repr

/-- Literal token match at the head of the input. -/
def tokMatches : List Char → List Char → Bool
  | [], _ => true
  | _ :: _, [] => false
  | t :: ts, c :: cs => t = c && tokMatches ts cs

/-- First token of the list matching at the head of the input (the
longest alternatives are listed first, which coincides with how the
backtracking regex resolves this grammar), with the rest of the input. -/
def matchFirstTok {α : Type} : List (List Char × α) → List Char → Option (α × List Char)
  | [], _ => none
  | (t, v) :: rest, cs =>
    if tokMatches t cs then some (v, cs.drop t.length)
    else matchFirstTok rest cs

/-- The `[-_.]? TOKEN` shape of the pre/post/dev groups: an optional single
separator, then one of the tokens. -/
def sepThenTok {α : Type} (toks : List (List Char × α)) (cs : List Char) :
    Option (α × List Char) :=
  match cs with
  | c :: rest => if isSepChar c then matchFirstTok toks rest else matchFirstTok toks cs
  | [] => none

/-- The `[-_.]? [0-9]*` tail of the pre/post/dev groups: an optional single
separator, then an optional number defaulting to 0 (`int(number or 0)`). -/
def optSepDigits (cs : List Char) : Nat × List Char :=
  let cs1 := match cs with
    | c :: rest => if isSepChar c then rest else cs
    | [] => []
  let (ds, rest) := cs1.span Char.isDigit
  (digitsToNat ds, rest)

/-- The `(\.[0-9]+)*` tail of the release segment: further dot-number
fields; a dot not followed by a digit is left unconsumed. -/
def parseRelTail : Nat → List Char → List Nat × List Char
  | 0, cs => ([], cs)
  | fuel + 1, cs =>
    match cs with
    | '.' :: rest =>
      let (ds, rest2) := rest.span Char.isDigit
      if ds.isEmpty then ([], cs)
      else
        let (more, rest3) := parseRelTail fuel rest2
        (digitsToNat ds :: more, rest3)
    | _ => ([], cs)

/-- Pre-release letters with their normalisation, longest first. -/
def preToks : List (List Char × PreTag) :=
  [("preview".data, .rc), ("alpha".data, .a), ("beta".data, .b), ("pre".data, .rc),
   ("rc".data, .rc), ("a".data, .a), ("b".data, .b), ("c".data, .rc)]

/-- The optional pre-release group. -/
def parsePre (cs : List Char) : Option (PreTag × Nat) × List Char :=
  match sepThenTok preToks cs with
  | some (t, cs2) =>
    let (n, cs3) := optSepDigits cs2
    (some (t, n), cs3)
  | none => (none, cs)

/-- Post-release letters (`post`, `rev`, `r`, all normalised to post). -/
def postToks : List (List Char × Unit) :=
  [("post".data, ()), ("rev".data, ()), ("r".data, ())]

/-- The lettered alternative of the post-release group. -/
def postLetter (cs : List Char) : Option Nat × List Char :=
  match sepThenTok postToks cs with
  | some (_, cs2) =>
    let (n, cs3) := optSepDigits cs2
    (some n, cs3)
  | none => (none, cs)

/-- The optional post-release group: the implicit `-N` spelling first, then
the lettered spelling, as in the pattern's alternation. -/
def parsePost (cs : List Char) : Option Nat × List Char :=
  match cs with
  | '-' :: rest =>
    let (ds, rest2) := rest.span Char.isDigit
    if ds.isEmpty then postLetter cs else (some (digitsToNat ds), rest2)
  | _ => postLetter cs

/-- The optional dev-release group. -/
def parseDev (cs : List Char) : Option Nat × List Char :=
  match sepThenTok [("dev".data, ())] cs with
  | some (_, cs2) =>
    let (n, cs3) := optSepDigits cs2
    (some n, cs3)
  | none => (none, cs)

/-- Characters of a local-version segment (`[a-z0-9]` after the global
lowercasing). -/
def isAlnumLower (c : Char) : Bool :=
  c.isDigit || (('a' ≤ c) && (c ≤ 'z'))

/-- Classifies a local segment: all-digit segments become integers,
anything else stays a string (`_parse_local_version`). -/
def localSegOf (seg : List Char) : LocalSeg :=
  if seg.all Char.isDigit then .num (digitsToNat seg) else .alnum ⟨seg⟩

/-- The `([-_.][a-z0-9]+)*` tail of the local version; a trailing
separator is left unconsumed (and then fails the end-of-input check). -/
def parseLocalTail : Nat → List Char → List LocalSeg × List Char
  | 0, cs => ([], cs)
  | fuel + 1, cs =>
    match cs with
    | c :: rest =>
      if isSepChar c then
        let (seg, rest2) := rest.span isAlnumLower
        if seg.isEmpty then ([], cs)
        else
          let (more, rest3) := parseLocalTail fuel rest2
          (localSegOf seg :: more, rest3)
      else ([], cs)
    | [] => ([], [])

/-- The optional `+local` group. -/
def parseLocal (cs : List Char) : Option (List LocalSeg) × List Char :=
  match cs with
  | '+' :: rest =>
    let (seg, rest2) := rest.span isAlnumLower
    if seg.isEmpty then (none, cs)
    else
      let (more, rest3) := parseLocalTail rest2.length rest2
      (some (localSegOf seg :: more), rest3)
  | _ => (none, cs)

/-- `packaging.version.Version`'s parser (the anchored, case-insensitive
`VERSION_PATTERN`), as the deterministic descent the backtracking regex
resolves to on this grammar: surrounding whitespace, optional `v`,
optional `N!` epoch, the dotted release, then the optional pre / post /
dev / local groups, requiring the input to be exhausted. Any leftover
input is the `InvalidVersion` of the source, which sends `is_newer` to its
fallback branch. -/
def parseVersion (s : String) : Option PyVersion :=
  let cs0 := stripWs (s.data.map Char.toLower)
  let cs1 := match cs0 with
    | 'v' :: rest => rest
    | _ => cs0
  let (d1, r1) := cs1.span Char.isDigit
  if d1.isEmpty then none
  else
    let (epoch, relStart) :=
      match r1 with
      | '!' :: r2 => (digitsToNat d1, r2)
      | _ => (0, cs1)
    let (rd, r3) := relStart.span Char.isDigit
    if rd.isEmpty then none
    else
      let (relMore, r4) := parseRelTail r3.length r3
      let (pre, r5) := parsePre r4
      let (post, r6) := parsePost r5
      let (dev, r7) := parseDev r6
      let (locl, r8) := parseLocal r7
      if r8.isEmpty then
        some ⟨epoch, digitsToNat rd :: relMore, pre, post, dev, locl⟩
      else none

/-- Three-way comparison on naturals, the integer comparisons inside the
version key. -/
def cmpNat (a b : Nat) : Ordering :=
  if a < b then .lt else if b < a then .gt else .eq

/-- Python tuple comparison on number lists: field-wise, a proper prefix
is smaller. -/
def cmpListNat : List Nat → List Nat → Ordering
  | [], [] => .eq
  | [], _ :: _ => .lt
  | _ :: _, [] => .gt
  | a :: as, b :: bs => if a < b then .lt else if b < a then .gt else cmpListNat as bs

/-- Trailing zero fields of the release are dropped before comparison
(`_cmpkey`), so 1.0 and 1.0.0 compare equal. -/
def stripZeros (l : List Nat) : List Nat :=
  (l.reverse.dropWhile (fun x => decide (x = 0))).reverse

/-- Field-wise release ordering of `_cmpkey`: numeric fields left to
right, missing trailing fields counting as zero. -/
def releaseGt (ra rb : List Nat) : Bool :=
  decide (cmpListNat (stripZeros ra) (stripZeros rb) = .gt)

/-- The pre-release slot of the comparison key, with the two sentinels of
`_cmpkey`: no pre/post but a dev marks the earliest of the version
(negative infinity), no pre otherwise the latest (infinity). -/
inductive PreKey
  | negInf
  | val (t : Nat) (n : Nat)
  | inf
deriving DecidableEq, Repr

/-- `_cmpkey`'s pre slot for a parsed version. -/
def preKeyOf (v : PyVersion) : PreKey :=
  match v.pre with
  | some (t, n) => .val (preTagNum t) n
  | none =>
    match v.post, v.dev with
    | none, some _ => .negInf
    | _, _ => .inf

/-- Ordering of the pre slot. -/
def cmpPreKey : PreKey → PreKey → Ordering
  | .negInf, .negInf => .eq
  | .negInf, _ => .lt
  | _, .negInf => .gt
  | .inf, .inf => .eq
  | .inf, _ => .gt
  | _, .inf => .lt
  | .val t1 n1, .val t2 n2 => (cmpNat t1 t2).then (cmpNat n1 n2)

/-- Ordering of the post slot: a missing post is negative infinity. -/
def cmpPost : Option Nat → Option Nat → Ordering
  | none, none => .eq
  | none, some _ => .lt
  | some _, none => .gt
  | some a, some b => cmpNat a b

/-- Ordering of the dev slot: a missing dev is infinity. -/
def cmpDev : Option Nat → Option Nat → Ordering
  | none, none => .eq
  | none, some _ => .gt
  | some _, none => .lt
  | some a, some b => cmpNat a b

/-- Python string comparison as a three-way ordering, for local segments. -/
def cmpChars : List Char → List Char → Ordering
  | [], [] => .eq
  | [], _ :: _ => .lt
  | _ :: _, [] => .gt
  | c :: cs, d :: ds => if c < d then .lt else if d < c then .gt else cmpChars cs ds

/-- Ordering of one local segment: integers above strings, as the
`(i, "")` versus `(NegativeInfinity, s)` keys of `_cmpkey` compare. -/
def cmpLocalSeg : LocalSeg → LocalSeg → Ordering
  | .num a, .num b => cmpNat a b
  | .num _, .alnum _ => .gt
  | .alnum _, .num _ => .lt
  | .alnum s, .alnum t => cmpChars s.data t.data

/-- Tuple ordering of local segment lists, a proper prefix smaller. -/
def cmpLocalList : List LocalSeg → List LocalSeg → Ordering
  | [], [] => .eq
  | [], _ :: _ => .lt
  | _ :: _, [] => .gt
  | a :: as, b :: bs => (cmpLocalSeg a b).then (cmpLocalList as bs)

/-- Ordering of the local slot: a missing local is negative infinity. -/
def cmpLocal : Option (List LocalSeg) → Option (List LocalSeg) → Ordering
  | none, none => .eq
  | none, some _ => .lt
  | some _, none => .gt
  | some a, some b => cmpLocalList a b

/-- The full comparison key of `packaging.version` (`_cmpkey`): epoch,
stripped release, pre slot with its sentinels, post, dev, local, compared
lexicographically. -/
def cmpVersion (x y : PyVersion) : Ordering :=
  ((((cmpNat x.epoch y.epoch).then
      (cmpListNat (stripZeros x.release) (stripZeros y.release))).then
      (cmpPreKey (preKeyOf x) (preKeyOf y))).then
      (cmpPost x.post y.post)).then
      ((cmpDev x.dev y.dev).then (cmpLocal x.localVer y.localVer))

/-- `Version.__gt__`: strict comparison of the keys. -/
def pyVersionGt (x y : PyVersion) : Bool :=
  decide (cmpVersion x y = .gt)

/-- `updater.is_newer`: `Version(ver_a) > Version(ver_b)` when both parse
under PEP 440; when either raises `InvalidVersion`, the fallback
`ver_a != ver_b and ver_a > ver_b` with plain lexicographic string order. -/
def is_newer (ver_a ver_b : String) : Bool :=
  match parseVersion ver_a, parseVersion ver_b with
  | some va, some vb => pyVersionGt va vb
  | _, _ => (ver_a != ver_b) && pyStrGt ver_a ver_b

/-! ## Reconnect backoff (`main.handle_mqtt_reconnection`) -/

/-- Retry ceiling `max_mqtt_retries` in `handle_mqtt_reconnection`. -/
def max_mqtt_retries : Nat := 5

/-- Delay computed in `handle_mqtt_reconnection` for the (already
incremented) attempt counter: `min(30 + (attempt - 1) * 15, 120)`. -/
def reconnect_delay (attempt : Nat) : Nat :=
  min (30 + (attempt - 1) * 15) 120

/-- One call of `main.handle_mqtt_reconnection`, reduced to the data the
claims are about. Input: the retry counter carried between iterations, the
outcome of `initialize_and_setup_mqtt` (`initSuccess`: it returned a
service), and whether the pre-existing service reports ready
(`existingReady`, the `orchestrator._mqtt_service.is_ready()` re-check).
Output: the delay slept before the attempt and the new retry counter. -/
def handle_mqtt_reconnection (count : Nat) (initSuccess existingReady : Bool) :
    Nat × Nat :=
  let attempt := count + 1
  let delay := reconnect_delay attempt
  if !initSuccess && existingReady then (delay, 0)
  else if initSuccess then (delay, 0)
  else if attempt ≥ max_mqtt_retries then (delay, 0)
  else (delay, attempt)

theorem stripZeros_three (a b c : Nat) :
    stripZeros [a, b, c] =
      if c = 0 then if b = 0 then if a = 0 then [] else [a] else [a, b]
      else [a, b, c] := by
  simp only [stripZeros]
  by_cases hc : c = 0 <;> by_cases hb : b = 0 <;> by_cases ha : a = 0 <;>
    simp [List.dropWhile, hc, hb, ha]

theorem releaseGt_three (a1 a2 a3 b1 b2 b3 : Nat) :
    releaseGt [a1, a2, a3] [b1, b2, b3] = true ↔
      (a1 > b1 ∨ (a1 = b1 ∧ (a2 > b2 ∨ (a2 = b2 ∧ a3 > b3)))) := by
  simp only [releaseGt, stripZeros_three]
  split_ifs <;>
    (simp only [cmpListNat]
     (try split_ifs) <;> (try simp_all) <;> (try omega))

theorem pyVersionGt_pure (ra rb : List Nat) :
    pyVersionGt (PyVersion.mk 0 ra none none none none)
        (PyVersion.mk 0 rb none none none none)
      = releaseGt ra rb := by
  cases hR : cmpListNat (stripZeros ra) (stripZeros rb) <;>
    simp [pyVersionGt, releaseGt, cmpVersion, preKeyOf, cmpPreKey, cmpPost,
      cmpDev, cmpLocal, cmpNat, Ordering.then, hR]

/-- Counterexample to C9: the parser of `is_newer` is PEP 440, not bare
semver — the string 1.0a1 fails to parse as a semantic version, so the
claim routes the pair (1.0a1, 1.0) to the lexicographic fallback, which
yields true; but the source parses 1.0a1 as a pre-release sorting below
its release, and `is_newer "1.0a1" "1.0"` is false. -/
theorem c9_counterexample :
    semverRelease "1.0a1" = none ∧
    (("1.0a1" != "1.0") && pyStrGt "1.0a1" "1.0") = true ∧
    is_newer "1.0a1" "1.0" = false := by
  decide

/-- C9 (amended): `is_newer` is total by construction; the parser is the
PEP 440 grammar of `packaging.version`, not bare semver, so pre-release /
epoch / post / dev / local forms parse and compare by the PEP 440 key
(1.0a1 sorts below 1.0, an epoch dominates: 1!1.0 above 2.0), and the
lexicographic fallback `a != b && a > b` applies exactly when PEP 440
parsing of either string fails; on strings that do parse with a plain
numeric dotted release (semantic versions among them) the order is the
numeric field-wise comparison, as the claim states, and all four concrete
examples of the claim hold. -/
theorem c9_pep440_ordering :
    (∀ a b va vb, parseVersion a = some va → parseVersion b = some vb →
        is_newer a b = pyVersionGt va vb) ∧
    (∀ a b ra rb,
        parseVersion a = some (PyVersion.mk 0 ra none none none none) →
        parseVersion b = some (PyVersion.mk 0 rb none none none none) →
        is_newer a b = releaseGt ra rb) ∧
    (∀ a b a1 a2 a3 b1 b2 b3,
        parseVersion a = some (PyVersion.mk 0 [a1, a2, a3] none none none none) →
        parseVersion b = some (PyVersion.mk 0 [b1, b2, b3] none none none none) →
        (is_newer a b = true ↔
          (a1 > b1 ∨ (a1 = b1 ∧ (a2 > b2 ∨ (a2 = b2 ∧ a3 > b3)))))) ∧
    (∀ a b, parseVersion a = none ∨ parseVersion b = none →
        is_newer a b = ((a != b) && pyStrGt a b)) ∧
    parseVersion "2.0.0" = some (PyVersion.mk 0 [2, 0, 0] none none none none) ∧
    semverRelease "2.0.0" = some [2, 0, 0] ∧
    parseVersion "b" = none ∧
    is_newer "2.0.0" "1.9.9" = true ∧
    is_newer "1.0.0" "1.0.0" = false ∧
    is_newer "1.0.0" "2.0.0" = false ∧
    is_newer "b" "a" = true ∧
    is_newer "1.0a1" "1.0" = false ∧
    is_newer "1!1.0" "2.0" = true := by
  refine ⟨?_, ?_, ?_, ?_, by decide, by decide, by decide, by decide, by decide,
    by decide, by decide, by decide, by decide⟩
  · intro a b va vb ha hb
    simp [is_newer, ha, hb]
  · intro a b ra rb ha hb
    simp [is_newer, ha, hb, pyVersionGt_pure]
  · intro a b a1 a2 a3 b1 b2 b3 ha hb
    have h2 : is_newer a b = releaseGt [a1, a2, a3] [b1, b2, b3] := by
      simp [is_newer, ha, hb, pyVersionGt_pure]
    rw [h2]
    exact releaseGt_three a1 a2 a3 b1 b2 b3
  · intro a b h
    rcases h with h | h
    · cases hb : parseVersion b <;> simp [is_newer, h, hb]
    · cases ha : parseVersion a <;> simp [is_newer, h, ha]

/-- Witness for C9 (amended): the general clauses of `c9_pep440_ordering`
applied at concrete versions. -/
theorem c9_pep440_ordering_witness :
    is_newer "2.0.0" "1.9.9" = releaseGt [2, 0, 0] [1, 9, 9] ∧
    (is_newer "10.4.1" "10.4.0" = true ↔
      (10 > 10 ∨ (10 = 10 ∧ (4 > 4 ∨ (4 = 4 ∧ 1 > 0))))) ∧
    is_newer "b" "a" = (("b" != "a") && pyStrGt "b" "a") := by
  refine ⟨c9_pep440_ordering.2.1 "2.0.0" "1.9.9" [2, 0, 0] [1, 9, 9]
    (by decide) (by decide), ?_, ?_⟩
  · exact c9_pep440_ordering.2.2.1 "10.4.1" "10.4.0" 10 4 1 10 4 0
      (by decide) (by decide)
  · exact c9_pep440_ordering.2.2.2.1 "b" "a" (Or.inl (by decide))

/-- C8: the delay for attempt `n ≥ 1` is `min (30 + (n-1)*15) 120`; delays
are non-decreasing in the attempt counter and bounded by the cap 120; the
counter is reset to 0 by a successful (re)connection and when the
max-attempt ceiling 5 is reached. -/
theorem c8_reconnect_backoff :
    (∀ n, 1 ≤ n → reconnect_delay n = min (30 + (n - 1) * 15) 120) ∧
    (∀ n, reconnect_delay n ≤ reconnect_delay (n + 1)) ∧
    (∀ n, reconnect_delay n ≤ 120) ∧
    (∀ c r, (handle_mqtt_reconnection c true r).2 = 0) ∧
    (∀ c, c + 1 ≥ max_mqtt_retries →
        (handle_mqtt_reconnection c false false).2 = 0) := by
  refine ⟨?_, ?_, ?_, ?_, ?_⟩
  · intro n _
    rfl
  · intro n
    simp only [reconnect_delay]
    omega
  · intro n
    simp only [reconnect_delay]
    omega
  · intro c r
    cases r <;> simp [handle_mqtt_reconnection]
  · intro c h
    simp [handle_mqtt_reconnection, h]

/-- Witness for C8: the clauses of `c8_reconnect_backoff` instantiated at
attempt 1 and at a counter that has reached the ceiling. -/
theorem c8_reconnect_backoff_witness :
    reconnect_delay 1 = min (30 + (1 - 1) * 15) 120 ∧
    (handle_mqtt_reconnection 4 false false).2 = 0 := by
  exact ⟨c8_reconnect_backoff.1 1 (by decide),
    c8_reconnect_backoff.2.2.2.2 4 (by decide)⟩

/-! ## MQTT service (`mqtt_service.MqttService`) -/

/-- Topics of the MQTT surface (fixed strings in the source). -/
inductive Topic
  | state
  | availability
  | discoveryConfig
  | command
deriving DecidableEq, Repr

/-- Payloads published by the service, abstracted from the JSON strings the
source serialises. -/
inductive Payload
  | statePayload (installed latest : String) (in_progress : Bool)
  | availabilityOnline
  | availabilityOffline
  | discoveryConfig
deriving DecidableEq, Repr

/-- One published MQTT message. -/
structure MqttMsg where
  topic : Topic
  payload : Payload
  retain : Bool
deriving DecidableEq, Repr

/-- The mutable fields of `MqttService` the claims are about:
`discovery_enabled` (constructor flag, never mutated), `_connected`,
`_update_entity_active`, `_initial_versions`. -/
structure MqttService where
  discovery_enabled : Bool
  connected : Bool
  update_entity_active : Bool
  initial_versions : Option (String × String)
deriving DecidableEq, Repr

/-- `MqttService.is_ready`: `self.discovery_enabled and self._connected`. -/
def is_ready (s : MqttService) : Bool :=
  s.discovery_enabled && s.connected

/-- `MqttService._publish`: drops the message when `self._connected` is
false, otherwise hands it to the client (modelled as the singleton list of
emitted messages). Default `retain=True` is made explicit at call sites. -/
def rawPublish (s : MqttService) (t : Topic) (p : Payload) (retain : Bool) :
    List MqttMsg :=
  if !s.connected then [] else [⟨t, p, retain⟩]

/-- `MqttService.publish_update_state`: early-returns unless `is_ready`,
then `_publish` of the state payload with `retain=False`. -/
def publish_update_state (s : MqttService) (installed latest : String)
    (in_progress : Bool) : List MqttMsg :=
  if !is_ready s then []
  else rawPublish s .state (.statePayload installed latest in_progress) false

/-- `MqttService.publish_update_availability`: early-returns unless
`is_ready`, then `_publish` of `online`/`offline` (retained by default). -/
def publish_update_availability (s : MqttService) (online : Bool) :
    List MqttMsg :=
  if !is_ready s then []
  else rawPublish s .availability
    (if online then .availabilityOnline else .availabilityOffline) true

/-- `MqttService._publish_discovery`: when `_update_entity_active`,
publishes the retained discovery config, then availability `online`, then —
when initial versions were set — the retained initial state. -/
def publish_discovery (s : MqttService) : List MqttMsg :=
  if !s.update_entity_active then []
  else
    rawPublish s .discoveryConfig .discoveryConfig true
      ++ publish_update_availability s true
      ++ (match s.initial_versions with
          | some (i, l) => rawPublish s .state (.statePayload i l false) true
          | none => [])

/-- `MqttService.deactivate_update_entity`: a no-op under the
`requires_discovery` guard when `discovery_enabled` is false; otherwise
`_publish` of retained `offline` availability (bypassing `is_ready`), then
`_update_entity_active := False`. -/
def deactivate_update_entity (s : MqttService) : MqttService × List MqttMsg :=
  if !s.discovery_enabled then (s, [])
  else ({ s with update_entity_active := false },
        rawPublish s .availability .availabilityOffline true)

/-- Micro-steps of the `_on_disconnect` callback, in source order, so the
ordering between the connected-flag flip and the offline publish attempt is
part of the observable behaviour. -/
inductive DisconnectStep
  | setConnectedFalse
  | offlinePublishAttempt (emitted : List MqttMsg)
deriving DecidableEq, Repr

/-- `MqttService._on_disconnect`: first sets `self._connected = False`
under the lock, then — when `discovery_enabled and _update_entity_active` —
attempts `publish_update_availability(False)` on the already-flipped state
(any exception swallowed). Returns the new state and the step trace. -/
def on_disconnect (s : MqttService) : MqttService × List DisconnectStep :=
  let s1 := { s with connected := false }
  if s.discovery_enabled && s.update_entity_active then
    (s1, [.setConnectedFalse,
          .offlinePublishAttempt (publish_update_availability s1 false)])
  else (s1, [.setConnectedFalse])

/-- All messages emitted by the publish attempts of a disconnect trace. -/
def offlineEmitted (steps : List DisconnectStep) : List MqttMsg :=
  steps.foldr
    (fun st acc =>
      match st with
      | .offlinePublishAttempt m => m ++ acc
      | _ => acc)
    []

/-- Counterexample to C4: on a connected, discovery-enabled service with
the update entity still active, the disconnect callback's trace flips the
connected flag first and the offline publish attempt is short-circuited by
the readiness check — it emits nothing. -/
theorem c4_counterexample :
    (on_disconnect ⟨true, true, true, none⟩).2 =
      [DisconnectStep.setConnectedFalse,
       DisconnectStep.offlinePublishAttempt []] := by
  decide

/-- C4 (amended): in the disconnect callback the connected flag flips to
false before the offline publish attempt, so the attempt is short-circuited
by the readiness check: no message is emitted from the callback, the first
step of the trace is the flag flip, and any subsequent `is_ready` call
observes `connected = false`. -/
theorem c4_disconnect_ordering (s : MqttService) :
    (on_disconnect s).1.connected = false ∧
    is_ready (on_disconnect s).1 = false ∧
    offlineEmitted (on_disconnect s).2 = [] ∧
    (on_disconnect s).2.head? = some DisconnectStep.setConnectedFalse := by
  unfold on_disconnect
  by_cases h : (s.discovery_enabled && s.update_entity_active) = true <;>
    simp [h, is_ready, offlineEmitted, publish_update_availability, rawPublish]

/-- Counterexample to C6: after `deactivate_update_entity` on a connected,
discovery-enabled service, `is_ready` is still true and the public state
publish still emits a message — the publish methods are not retired. -/
theorem c6_counterexample :
    is_ready (deactivate_update_entity ⟨true, true, true, none⟩).1 = true ∧
    publish_update_state (deactivate_update_entity ⟨true, true, true, none⟩).1
      "15.2.0" "15.3.0" false ≠ [] := by
  decide

/-- C6 (amended): `is_ready` returns `discovery_enabled && connected`,
where `discovery_enabled` is the construction-time flag that
`deactivate_update_entity` never touches; the publish methods are no-ops
whenever `is_ready` is false; `deactivate_update_entity` flips
`_update_entity_active` (when discovery is enabled), after which the
discovery publication is a no-op — but `publish_update_state` still emits
while the service stays connected, so deactivation does not retire the
state and availability publishes. -/
theorem c6_readiness_gating :
    (∀ s, is_ready s = (s.discovery_enabled && s.connected)) ∧
    (∀ s i l p, is_ready s = false → publish_update_state s i l p = []) ∧
    (∀ s b, is_ready s = false → publish_update_availability s b = []) ∧
    (∀ s, s.discovery_enabled = true →
        (deactivate_update_entity s).1.update_entity_active = false) ∧
    (∀ s, s.update_entity_active = false → publish_discovery s = []) ∧
    (∀ s i l p, s.discovery_enabled = true → s.connected = true →
        publish_update_state (deactivate_update_entity s).1 i l p ≠ []) := by
  refine ⟨?_, ?_, ?_, ?_, ?_, ?_⟩
  · intro s
    rfl
  · intro s i l p h
    simp [publish_update_state, h]
  · intro s b h
    simp [publish_update_availability, h]
  · intro s h
    simp [deactivate_update_entity, h]
  · intro s h
    simp [publish_discovery, h]
  · intro s i l p hd hc
    simp [deactivate_update_entity, hd, publish_update_state, is_ready,
      rawPublish, hc]

/-- Witness for C6 (amended): `c6_readiness_gating` applied to a concrete
connected service and to a concrete unready service. -/
theorem c6_readiness_gating_witness :
    publish_update_state (MqttService.mk true false true none) "a" "b" false = [] ∧
    (deactivate_update_entity (MqttService.mk true true true none)).1.update_entity_active
      = false ∧
    publish_update_state (deactivate_update_entity (MqttService.mk true true true none)).1
      "a" "b" false ≠ [] := by
  refine ⟨c6_readiness_gating.2.1 (MqttService.mk true false true none) "a" "b" false (by decide),
    c6_readiness_gating.2.2.2.1 (MqttService.mk true true true none) (by decide), ?_⟩
  exact c6_readiness_gating.2.2.2.2.2 (MqttService.mk true true true none) "a" "b" false
    (by decide) (by decide)

/-! ## Install orchestration (`orchestrator.UpdateOrchestrator`) -/

/-- Outcome of `rauc_installer.install_bundle` at its boundary: it returns
`True` or raises `InstallError` (every other exception is wrapped into
`InstallError` inside it). -/
inductive InstallBundleOutcome
  | ok
  | installErr
deriving DecidableEq, Repr

/-- Result of `UpdateOrchestrator.install_if_ready` seen from
`run_install`: a returned success flag, or an exception escaping the
method (its `try` only catches `InstallError`; `_touch_reboot_flag` —
`Path.touch` on `/data` — runs outside any handler on the success path, so
an `OSError` there propagates). `touchRaises` is that collaborator
failure. -/
def install_if_ready (outcome : InstallBundleOutcome) (touchRaises : Bool) :
    Except Unit Bool :=
  match outcome with
  | .installErr => .ok false
  | .ok => if touchRaises then .error () else .ok true

/-- Orchestrator fields relevant to the install flow. -/
structure Orch where
  in_progress : Bool
  latest_version : Option String
  has_mqtt : Bool
deriving DecidableEq, Repr

/-- Observable behaviour of one `run_install` call. -/
structure RunInstallResult where
  installerCalled : Bool
  raised : Bool
  publishedFailureState : Bool
  deactivated : Bool
  notifiedSuccess : Bool
deriving DecidableEq, Repr

/-- `UpdateOrchestrator.run_install`, step for step: (optional discovery
republish), `_in_progress = True`, `publish_state`, the unguarded call to
`install_if_ready`, `_in_progress = False`, then on success deactivate the
entity and notify, on failure republish the state. There is no
lock/in-progress check at entry and no `try/finally` around the installer
call: an exception from `install_if_ready` leaves `_in_progress` as it
was at that point (true). -/
def run_install (st : Orch) (outcome : InstallBundleOutcome)
    (touchRaises : Bool) : Orch × RunInstallResult :=
  let st1 := { st with in_progress := true }
  match install_if_ready outcome touchRaises with
  | .error _ =>
      (st1, { installerCalled := true, raised := true,
              publishedFailureState := false, deactivated := false,
              notifiedSuccess := false })
  | .ok success =>
      let st2 := { st1 with in_progress := false }
      (st2, { installerCalled := true, raised := false,
              publishedFailureState := st.has_mqtt && !success,
              deactivated := st.has_mqtt && success,
              notifiedSuccess := success })

/-- C1 (code bug): `run_install` entered while an install is already
marked in progress still calls the installer — there is no non-blocking
lock acquisition and no early return, so two overlapping invocations both
invoke the installer, contrary to the claim and to the repository's own
`test_concurrent_run_install`. -/
theorem c1_run_install_no_guard :
    (run_install ⟨true, some "15.3.0", true⟩ InstallBundleOutcome.ok false).2.installerCalled
      = true ∧
    (run_install ⟨true, some "15.3.0", true⟩ InstallBundleOutcome.ok false).1.in_progress
      = false := by
  decide

/-- C3 (code bug): an unexpected exception from the installer boundary —
here `install_bundle` succeeding but `_touch_reboot_flag` raising inside
`install_if_ready` — propagates out of `run_install` with `_in_progress`
left `true`: the in-progress flag leaks, contrary to the claim and to the
repository's own `test_run_install_exception_and_notify_exception`. -/
theorem c3_in_progress_leak :
    (run_install ⟨false, some "15.3.0", true⟩ InstallBundleOutcome.ok true).2.raised
      = true ∧
    (run_install ⟨false, some "15.3.0", true⟩ InstallBundleOutcome.ok true).1.in_progress
      = true := by
  decide

/-! ## Update check (`updater.check_for_update_and_download`) -/

/-- Boundary behaviour of `supervisor_api.get_current_haos_version`: it
returns the installed version string, or raises `NetworkError` (on
`requests.RequestException`) or `SupervisorError` (on any other failure);
it never returns `None`. -/
inductive LookupOutcome
  | ok (v : String)
  | raisesNet
  | raisesSup
deriving DecidableEq, Repr

/-- Boundary behaviour of `updater.fetch_available_update`: an
`UpdateInfo`, or — via `_handle_request_error` — `NetworkError` for a
`requests.RequestException` and `DownloadError` for any other failure
(e.g. a JSON parse error). -/
inductive FetchOutcome
  | ok (version : String) (sha : Option String)
  | raisesNet
  | raisesDl
deriving DecidableEq, Repr

/-- Boundary behaviour of `updater.download_update` as seen by
`check_for_update_and_download`: a path, or — again via
`_handle_request_error` / the hash check — `DownloadError` or
`NetworkError`. -/
inductive DownloadCallOutcome
  | ok
  | raisesDl
  | raisesNet
deriving DecidableEq, Repr

/-- Exceptions of `errors.py` that can cross the
`check_for_update_and_download` boundary. -/
inductive UpdErr
  | network
  | download
  | supervisor
deriving DecidableEq, Repr

/-- `UpdateInfo.filename`: the name derived from the version. -/
def bundleFilename (version : String) : String :=
  "haos_umdu-k1-" ++ version ++ ".raucb"

/-- `updater.check_for_update_and_download`: the control flow of the
source, with the collaborator boundaries explicit. Its `try` around the
metadata fetch catches only `NetworkError` and its `try` around the
download catches only `DownloadError`; the installed-version lookup is not
guarded at all. -/
def check_for_update_and_download (auto_download : Bool)
    (lookup : LookupOutcome) (fetch : FetchOutcome)
    (dl : DownloadCallOutcome) : Except UpdErr (Option String) :=
  match lookup with
  | .raisesNet => .error .network
  | .raisesSup => .error .supervisor
  | .ok current =>
    if current = "" then .ok none
    else
      match fetch with
      | .raisesNet => .ok none
      | .raisesDl => .error .download
      | .ok ver _sha =>
        if is_newer ver current then
          if auto_download then
            match dl with
            | .ok => .ok (some (bundleFilename ver))
            | .raisesDl => .ok none
            | .raisesNet => .error .network
          else .ok none
        else .ok none

/-- Counterexample to C2: when the installed-version lookup fails (a
Supervisor `/os/info` network error), `check_for_update_and_download` does
not return `None` — the `NetworkError` propagates to the caller, because
the lookup sits outside every `try` of the function. -/
theorem c2_counterexample :
    check_for_update_and_download true LookupOutcome.raisesNet
        (FetchOutcome.ok "15.3.0" none) DownloadCallOutcome.ok
      = Except.error UpdErr.network := by
  rfl

/-- C2 (amended): `check_for_update_and_download` returns `None` when the
lookup yields a falsy version string, when the metadata fetch raises
`NetworkError`, when no newer version exists, when a newer version exists
but auto-download is off, and when the download raises `DownloadError`;
but a `NetworkError`/`SupervisorError` raised by the installed-version
lookup, a `DownloadError` raised by the metadata fetch, and a
`NetworkError` raised by the download all propagate to the caller. -/
theorem c2_never_raises_scope :
    (∀ a f d, check_for_update_and_download a LookupOutcome.raisesNet f d
        = .error .network) ∧
    (∀ a f d, check_for_update_and_download a LookupOutcome.raisesSup f d
        = .error .supervisor) ∧
    (∀ a f d, check_for_update_and_download a (.ok "") f d = .ok none) ∧
    (∀ a v d, v ≠ "" →
        check_for_update_and_download a (.ok v) FetchOutcome.raisesNet d
          = .ok none) ∧
    (∀ a v d, v ≠ "" →
        check_for_update_and_download a (.ok v) FetchOutcome.raisesDl d
          = .error .download) ∧
    (∀ a v ver sha d, v ≠ "" → is_newer ver v = false →
        check_for_update_and_download a (.ok v) (.ok ver sha) d = .ok none) ∧
    (∀ v ver sha d, v ≠ "" → is_newer ver v = true →
        check_for_update_and_download false (.ok v) (.ok ver sha) d
          = .ok none) ∧
    (∀ v ver sha, v ≠ "" → is_newer ver v = true →
        check_for_update_and_download true (.ok v) (.ok ver sha)
            DownloadCallOutcome.raisesDl = .ok none) ∧
    (∀ v ver sha, v ≠ "" → is_newer ver v = true →
        check_for_update_and_download true (.ok v) (.ok ver sha)
            DownloadCallOutcome.raisesNet = .error .network) ∧
    (∀ v ver sha, v ≠ "" → is_newer ver v = true →
        check_for_update_and_download true (.ok v) (.ok ver sha)
            DownloadCallOutcome.ok = .ok (some (bundleFilename ver))) := by
  refine ⟨?_, ?_, ?_, ?_, ?_, ?_, ?_, ?_, ?_, ?_⟩
  · intro a f d
    rfl
  · intro a f d
    rfl
  · intro a f d
    rfl
  · intro a v d h
    simp [check_for_update_and_download, h]
  · intro a v d h
    simp [check_for_update_and_download, h]
  · intro a v ver sha d h hn
    simp [check_for_update_and_download, h, hn]
  · intro v ver sha d h hn
    simp [check_for_update_and_download, h, hn]
  · intro v ver sha h hn
    simp [check_for_update_and_download, h, hn]
  · intro v ver sha h hn
    simp [check_for_update_and_download, h, hn]
  · intro v ver sha h hn
    simp [check_for_update_and_download, h, hn]

/-- Witness for C2 (amended): `c2_never_raises_scope` at installed version
15.2.0 and available version 15.3.0. -/
theorem c2_never_raises_scope_witness :
    check_for_update_and_download true (.ok "15.2.0") FetchOutcome.raisesNet
        DownloadCallOutcome.ok = .ok none ∧
    check_for_update_and_download true (.ok "15.2.0") (.ok "15.3.0" none)
        DownloadCallOutcome.raisesDl = .ok none := by
  exact ⟨c2_never_raises_scope.2.2.2.1 true "15.2.0" DownloadCallOutcome.ok (by decide),
    c2_never_raises_scope.2.2.2.2.2.2.2.1 "15.2.0" "15.3.0" none (by decide) (by decide)⟩

/-! ## Bundle download (`updater.download_update`) -/

/-- Python `str.lower()` restricted to its ASCII action, enough for the
hex digests compared in `_verify_sha256`. -/
def lowerStr (s : String) : String :=
  ⟨s.data.map Char.toLower⟩

/-- Stand-in for `hashlib.sha256(...).hexdigest()` on a file's content: an
injective deterministic digest function (the collaborator `hashlib` is
external to the repository; all the claims need is that the digest is
recomputed from the bytes on disk and compared textually). -/
def sha256hex (content : String) : String :=
  "sha-" ++ content

/-- `updater._verify_sha256`: recomputes the digest of the on-disk content
and compares it to the expected string with both sides lowered
(`sha.hexdigest().lower() == expected.lower()`). -/
def verify_sha256 (content : String) (expected : String) : Bool :=
  lowerStr (sha256hex content) == lowerStr expected

/-- `updater.UpdateInfo`: version and optional expected digest; the
filename and the path in the fixed store directory are derived from the
version via `bundleFilename`. -/
structure UpdateInfo where
  version : String
  sha256 : Option String
deriving DecidableEq, Repr

/-- On-disk state of the store directory `/share/umdu-haos-updater` as
`download_update` observes it: the content of the file at the
descriptor's own path, if present, and the names of the other cached
bundle files (those matched by the cleanup glob
`haos_umdu-k1-*.raucb` with a different name). -/
structure ShareDir where
  target : Option String
  others : List String
deriving DecidableEq, Repr

/-- Behaviour of the streamed GET in `download_update`: either the full
content is written chunk by chunk, or the transfer fails mid-stream after
`leftover` bytes were already written to the opened file
(`isRequestsErr` selects which exception `_handle_request_error`
re-raises: `NetworkError` for a `requests.RequestException`,
`DownloadError` otherwise). -/
inductive NetOutcome
  | ok (content : String)
  | failMidstream (leftover : String) (isRequestsErr : Bool)
deriving DecidableEq, Repr

/-- Result of `download_update`: the returned path (by filename), or the
exception it raises. -/
inductive DlResult
  | path (name : String)
  | errDownload
  | errNetwork
deriving DecidableEq, Repr

/-- `updater.download_update`, step for step. Pre-existing file: with a
digest it is accepted if it verifies (early return, no cleanup), else
unlinked; without a digest presence alone is accepted (early return, no
cleanup). Then every other cached bundle is deleted and the body is
streamed to the (re)created file; a mid-stream failure leaves the partial
file and re-raises via `_handle_request_error`; after a complete write a
provided digest is recomputed from disk — on mismatch the file is
unlinked and `DownloadError` raised, otherwise the path is returned. -/
def download_update (info : UpdateInfo) (share : ShareDir) (net : NetOutcome) :
    ShareDir × DlResult :=
  let name := bundleFilename info.version
  match share.target with
  | some cached =>
    match info.sha256 with
    | some h =>
      if verify_sha256 cached h then (share, .path name)
      else downloadBody info { share with target := none } net
    | none => (share, .path name)
  | none => downloadBody info share net
where
  /-- The part of `download_update` after the pre-existing-file check:
  cleanup of other bundles, streaming, post-write verification. -/
  downloadBody (info : UpdateInfo) (share : ShareDir) (net : NetOutcome) :
      ShareDir × DlResult :=
    let name := bundleFilename info.version
    let cleaned : ShareDir := { share with others := [] }
    match net with
    | .failMidstream leftover isReq =>
        ({ cleaned with target := some leftover },
         if isReq then .errNetwork else .errDownload)
    | .ok content =>
        let written : ShareDir := { cleaned with target := some content }
        match info.sha256 with
        | some h =>
          if verify_sha256 content h then (written, .path name)
          else ({ written with target := none }, .errDownload)
        | none => (written, .path name)

/-- Counterexample to C5: a transport failure mid-stream leaves the
partially written file on disk — `download_update` raises (here
`NetworkError`, since the cause is a `requests.RequestException`) without
unlinking the bytes already written, so a partial file survives a failure
path. -/
theorem c5_counterexample :
    download_update ⟨"15.3.0", some (sha256hex "full-bundle")⟩
        ⟨none, []⟩ (NetOutcome.failMidstream "half" true)
      = (⟨some "half", []⟩, DlResult.errNetwork) := by
  rfl

theorem char_toNat_ofNat (n : Nat) (h : n.isValidChar) :
    (Char.ofNat n).toNat = n := by
  unfold Char.ofNat
  rw [dif_pos h]
  unfold Char.ofNatAux Char.toNat
  simp [UInt32.toNat]

theorem char_toLower_idem (a : Char) : a.toLower.toLower = a.toLower := by
  unfold Char.toLower
  by_cases hc : a.toNat ≥ 65 ∧ a.toNat ≤ 90
  · have hv : (a.toNat + 32).isValidChar := Or.inl (by omega)
    simp only [hc, and_self, if_true, char_toNat_ofNat _ hv]
    rw [if_neg (by omega)]
  · simp only [if_neg hc]

theorem lowerStr_idem (s : String) : lowerStr (lowerStr s) = lowerStr s := by
  simp only [lowerStr, List.map_map]
  congr 1
  apply List.map_congr_left
  intro a _
  exact char_toLower_idem a

/-- C5 (amended): after a complete write with a digest provided, the hash
is recomputed from the on-disk content and compared case-insensitively —
on mismatch the file is unlinked and `DownloadError` raised, on match the
path is returned; the pre-existing-file check likewise deletes a stale
mismatching file; but a transport failure mid-stream leaves the partially
written file on disk while the call raises, so the no-partial-file
guarantee holds only on the hash-mismatch failure path, not on the
mid-stream one. -/
theorem c5_hash_discipline :
    (∀ v h others c, verify_sha256 c h = true →
        download_update ⟨v, some h⟩ ⟨none, others⟩ (NetOutcome.ok c)
          = (⟨some c, []⟩, .path (bundleFilename v))) ∧
    (∀ v h others c, verify_sha256 c h = false →
        download_update ⟨v, some h⟩ ⟨none, others⟩ (NetOutcome.ok c)
          = (⟨none, []⟩, .errDownload)) ∧
    (∀ c h, verify_sha256 c h = verify_sha256 c (lowerStr h)) ∧
    (∀ v h others stale net, verify_sha256 stale h = false →
        (download_update ⟨v, some h⟩ ⟨some stale, others⟩ net).1.target
          = (download_update ⟨v, some h⟩ ⟨none, others⟩ net).1.target) ∧
    (∀ v h others leftover isReq,
        download_update ⟨v, some h⟩ ⟨none, others⟩
            (NetOutcome.failMidstream leftover isReq)
          = (⟨some leftover, []⟩,
             if isReq then DlResult.errNetwork else DlResult.errDownload)) := by
  refine ⟨?_, ?_, ?_, ?_, ?_⟩
  · intro v h others c hv
    simp [download_update, download_update.downloadBody, hv]
  · intro v h others c hv
    simp [download_update, download_update.downloadBody, hv]
  · intro c h
    simp only [verify_sha256]
    rw [lowerStr_idem]
  · intro v h others stale net hv
    simp [download_update, hv]
  · intro v h others leftover isReq
    simp [download_update, download_update.downloadBody]

/-- Witness for C5 (amended): `c5_hash_discipline` at a matching digest, a
mismatching digest and a mid-stream failure. -/
theorem c5_hash_discipline_witness :
    download_update ⟨"1.1", some (sha256hex "good")⟩ ⟨none, []⟩ (NetOutcome.ok "good")
      = (⟨some "good", []⟩, .path (bundleFilename "1.1")) ∧
    download_update ⟨"1.1", some (sha256hex "good")⟩ ⟨none, []⟩ (NetOutcome.ok "bad")
      = (⟨none, []⟩, .errDownload) := by
  exact ⟨c5_hash_discipline.1 "1.1" (sha256hex "good") [] "good" (by decide),
    c5_hash_discipline.2.1 "1.1" (sha256hex "good") [] "bad" (by decide)⟩

/-- Counterexample to C7: a successful `download_update` on a pre-existing
valid target file returns early without the cleanup pass, so another
cached bundle file survives and the store does not contain exactly one
bundle after the call. -/
theorem c7_counterexample :
    download_update ⟨"15.3.0", none⟩
        ⟨some "cached-bytes", ["haos_umdu-k1-15.2.0.raucb"]⟩ (NetOutcome.ok "fresh")
      = (⟨some "cached-bytes", ["haos_umdu-k1-15.2.0.raucb"]⟩,
         DlResult.path (bundleFilename "15.3.0")) := by
  rfl

/-- C7 (amended): on the path that actually writes — no pre-existing
target, or a pre-existing target whose digest fails the pre-check — every
other cached bundle file is deleted before writing, and after success the
store holds exactly the just-downloaded bundle (content present, no other
bundle files); but on the early-accept path (pre-existing file with no
digest, or digest verifying) the other cached bundles are left in place. -/
theorem c7_single_cache :
    (∀ v others c, download_update ⟨v, none⟩ ⟨none, others⟩ (NetOutcome.ok c)
        = (⟨some c, []⟩, .path (bundleFilename v))) ∧
    (∀ v h others c, verify_sha256 c h = true →
        download_update ⟨v, some h⟩ ⟨none, others⟩ (NetOutcome.ok c)
          = (⟨some c, []⟩, .path (bundleFilename v))) ∧
    (∀ v h others stale c, verify_sha256 stale h = false →
        verify_sha256 c h = true →
        download_update ⟨v, some h⟩ ⟨some stale, others⟩ (NetOutcome.ok c)
          = (⟨some c, []⟩, .path (bundleFilename v))) ∧
    (∀ v others stale net,
        download_update ⟨v, none⟩ ⟨some stale, others⟩ net
          = (⟨some stale, others⟩, .path (bundleFilename v))) ∧
    (∀ v h others stale net, verify_sha256 stale h = true →
        download_update ⟨v, some h⟩ ⟨some stale, others⟩ net
          = (⟨some stale, others⟩, .path (bundleFilename v))) := by
  refine ⟨?_, ?_, ?_, ?_, ?_⟩
  · intro v others c
    simp [download_update, download_update.downloadBody]
  · intro v h others c hv
    simp [download_update, download_update.downloadBody, hv]
  · intro v h others stale c hs hv
    simp [download_update, download_update.downloadBody, hs, hv]
  · intro v others stale net
    simp [download_update]
  · intro v h others stale net hv
    simp [download_update, hv]

/-- Witness for C7 (amended): `c7_single_cache` on a store holding a stale
bundle, for a fresh write and for a verified redownload. -/
theorem c7_single_cache_witness :
    download_update ⟨"1.1", none⟩ ⟨none, ["haos_umdu-k1-1.0.raucb"]⟩ (NetOutcome.ok "c")
      = (⟨some "c", []⟩, .path (bundleFilename "1.1")) ∧
    download_update ⟨"1.1", some (sha256hex "c")⟩
        ⟨some "junk", ["haos_umdu-k1-1.0.raucb"]⟩ (NetOutcome.ok "c")
      = (⟨some "c", []⟩, .path (bundleFilename "1.1")) := by
  exact ⟨c7_single_cache.1 "1.1" ["haos_umdu-k1-1.0.raucb"] "c",
    c7_single_cache.2.2.1 "1.1" (sha256hex "c") ["haos_umdu-k1-1.0.raucb"] "junk" "c"
      (by decide) (by decide)⟩

/-! ## MQTT bring-up (`main.initialize_and_setup_mqtt`,
`main.handle_install_cmd`) and the missing orchestrator attribute -/

/-- Attributes defined on class `UpdateOrchestrator` (methods and the
fields assigned in `__init__`), transcribed from `orchestrator.py`. -/
def orchestratorAttrs : List String :=
  ["_cfg", "_notifier", "_mqtt_service", "_in_progress", "_latest_version",
   "manual_install_active", "set_mqtt_service", "publish_state",
   "check_and_download", "install_if_ready", "auto_cycle_once",
   "run_install", "_send_via_mosquitto_pub", "_touch_reboot_flag"]

/-- Keyword parameters accepted by `updater.check_for_update_and_download`
(`auto_download`, `orchestrator`), transcribed from its signature. -/
def checkForUpdateParams : List String :=
  ["auto_download", "orchestrator"]

/-- Result of `main.initialize_and_setup_mqtt` as the loop observes it. -/
inductive InitMqttResult
  | noService
  | service
deriving DecidableEq, Repr

/-- `main.initialize_and_setup_mqtt`: after the optional wait and
already-connected re-check, resolves the broker parameters; a missing host
returns `None`; otherwise the `try` block constructs the client and then
evaluates `orchestrator.get_versions` — an attribute access on the
orchestrator — before any connection is started, and the enclosing
`except Exception` converts any failure there into a `None` return. -/
def init_and_setup_mqtt (retryDelay : Nat) (alreadyReady : Bool)
    (host : Option String) : InitMqttResult :=
  if retryDelay > 0 && alreadyReady then .noService
  else
    match host with
    | none => .noService
    | some _ =>
      if orchestratorAttrs.contains "get_versions" then .service
      else .noService

/-- What a call of `main.handle_install_cmd` reaches. -/
inductive InstallCmdResult
  | droppedInProgress
  | raisesAttrError
  | raisesTypeError
  | reachedRunInstall
deriving DecidableEq, Repr

/-- `main.handle_install_cmd`: the in-progress guard, then
`orchestrator.get_versions()` — an `AttributeError` when the attribute is
missing — and then `check_for_update_and_download(..., dev_channel=...)` —
a `TypeError` when the callee does not accept that keyword. Neither call
is inside a handler, so either failure escapes before `run_install`. -/
def handle_install_cmd (in_progress : Bool) : InstallCmdResult :=
  if in_progress then .droppedInProgress
  else if !(orchestratorAttrs.contains "get_versions") then .raisesAttrError
  else if !(checkForUpdateParams.contains "dev_channel") then .raisesTypeError
  else .reachedRunInstall

/-- C10: `UpdateOrchestrator` defines no `get_versions` attribute and
`check_for_update_and_download` accepts no `dev_channel` keyword, so
`initialize_and_setup_mqtt` returns `None` for every configuration (the
`AttributeError` raised inside its `try` is swallowed into the `None`
return) and `handle_install_cmd`, when not dropped by the in-progress
guard, raises before ever reaching `run_install`. -/
theorem c10_dead_mqtt_setup :
    (∀ d r h, init_and_setup_mqtt d r h = InitMqttResult.noService) ∧
    handle_install_cmd false = InstallCmdResult.raisesAttrError ∧
    orchestratorAttrs.contains "get_versions" = false ∧
    checkForUpdateParams.contains "dev_channel" = false := by
  refine ⟨?_, by decide, by decide, by decide⟩
  intro d r h
  have hg : orchestratorAttrs.contains "get_versions" = false := by decide
  cases h
  · simp [init_and_setup_mqtt]
  · simp [init_and_setup_mqtt, hg]
    intro _
    decide

end Umdu
